import Mathlib

/-!
Verification development for the CAP error-handler library.

The library is embedded shallowly: JavaScript values are modelled by `JSVal`
(a property-bag model of objects, with a class tag standing for the dynamic
class used by `instanceof` checks), fallible evaluation is modelled by
`Except JSVal` (the error component is the thrown value), and each source
function is translated into a Lean definition of the same name where
possible:

- `isHanaError`, `isCpiHttpError`, `normalizeError` embed the classifier
  module (`normalizeError.js`);
- `mkCustomErrorNew` embeds the request-context-aware `CustomError`
  constructor that ships next to `normalizeError` (the one whose
  `logError({cds, tableName})` / `toCdsError()` signatures match the call
  sites in `handleErrorsWrapper.js`); `mkCustomErrorLegacy` embeds the
  older constructor at `lib/core/CustomError.js`;
- `newValidationError`, `newAuthorizationError`, `newBusinessLogicError`
  embed the three classes in `lib/errorTypes/` (which extend the
  `lib/core/CustomError.js` base via `require("../core/CustomError")`);
- `logError` embeds `CustomError.logError`, with the external transactional
  collaborator (`cds.transaction()`, `tx.begin/run/commit`) abstracted by a
  `TxBehavior` oracle giving the outcome (normal return or thrown value) of
  each call site, and the wall clock abstracted by a `now` ISO string;
- `toCdsError` embeds `CustomError.toCdsError`;
- `handleErrors` embeds the wrapper in `lib/utils/handleErrorsWrapper.js`;
  its observable behaviour is collected in a `WrapOutcome` (the wrapped
  handler result, the `req.error(...)` calls, the notifier calls, and the
  persistence attempts).

Modelling conventions: object properties are all treated as own enumerable
properties; `Error.captureStackTrace` output is abstracted by the marker
`capturedStackTraceVal`; machine numbers are `Int` (all numbers in the
library are small integers).
-/

/-- Dynamic class of a JS object, as far as the `instanceof` checks in the
library can distinguish them. `plain` is an object that is not an `Error`. -/
inductive JSClass where
  | plain
  | syntaxError
  | typeError
  | referenceError
  | rangeError
  | customError
  | validationError
  | authorizationError
  | businessLogicError
deriving DecidableEq, Repr

/-- Shallow model of a JavaScript value: primitives plus property-bag
objects carrying a dynamic class tag. -/
inductive JSVal where
  | undefV : JSVal
  | nul : JSVal
  | boolean : Bool → JSVal
  | number : Int → JSVal
  | string : String → JSVal
  | object : JSClass → List (String × JSVal) → JSVal
deriving Repr

/-- JavaScript truthiness. -/
def truthy : JSVal → Bool
  | .undefV => false
  | .nul => false
  | .boolean b => b
  | .number n => n != 0
  | .string s => s != ""
  | .object _ _ => true

/-- JavaScript `a || b` (value-returning disjunction). -/
def jsOr (a b : JSVal) : JSVal :=
  if truthy a then a else b

/-- First binding of a key in a property list (`undefined` when absent). -/
def lookupProp : List (String × JSVal) → String → JSVal
  | [], _ => .undefV
  | (k2, v) :: rest, k => if k2 = k then v else lookupProp rest k

/-- Property read on a value already known to be non-nullish (objects look
up the property, primitives yield `undefined`). -/
def fieldOf : JSVal → String → JSVal
  | .object _ props, k => lookupProp props k
  | _, _ => .undefV

/-- A thrown `TypeError` value. -/
def typeErrorVal (msg : String) : JSVal :=
  .object .typeError [("name", .string "TypeError"), ("message", .string msg)]

/-- Property read `v[k]`: throws a `TypeError` on `null`/`undefined`,
otherwise reads as `fieldOf`. -/
def JSVal.getProp : JSVal → String → Except JSVal JSVal
  | .undefV, k => .error (typeErrorVal ("Cannot read properties of undefined (reading " ++ k ++ ")"))
  | .nul, k => .error (typeErrorVal ("Cannot read properties of null (reading " ++ k ++ ")"))
  | v, k => .ok (fieldOf v k)

/-- Optional-chaining read `v?.k`. -/
def optGet (v : JSVal) (k : String) : JSVal :=
  match v with
  | .undefV => .undefV
  | .nul => .undefV
  | other => fieldOf other k

/-- The class tag of an object value. -/
def classTagOf : JSVal → Option JSClass
  | .object c _ => some c
  | _ => none

/-- `v instanceof CustomError` (true for `CustomError` and its three
subclasses). -/
def isInstanceOfCustomError : JSVal → Bool
  | .object .customError _ => true
  | .object .validationError _ => true
  | .object .authorizationError _ => true
  | .object .businessLogicError _ => true
  | _ => false

/-- `v` is an object of exactly the given class. -/
def classTagIs (v : JSVal) (c : JSClass) : Bool :=
  match v with
  | .object c2 _ => c2 = c
  | _ => false

/-- `v instanceof Error` (every non-plain object class in the model extends
`Error`). -/
def isInstanceOfError : JSVal → Bool
  | .object .plain _ => false
  | .object _ _ => true
  | _ => false

/-- Is the value a string primitive? -/
def isStringVal : JSVal → Bool
  | .string _ => true
  | _ => false

/-- Is the value an object? -/
def isObjectVal : JSVal → Bool
  | .object _ _ => true
  | _ => false

/-- JavaScript `String(v)` for the values the library coerces. -/
def jsToString : JSVal → String
  | .undefV => "undefined"
  | .nul => "null"
  | .boolean b => cond b "true" "false"
  | .number n => toString n
  | .string s => s
  | .object _ _ => "[object Object]"

/-- `String.prototype.startsWith`, character-list based so that it reduces
definitionally. -/
def strStartsWith (s pre : String) : Bool :=
  pre.data.isPrefixOf s.data

/-- Substring containment (`String.prototype.includes`), character-list
based. -/
def listHasSub (pat : List Char) : List Char → Bool
  | [] => pat.isEmpty
  | c :: rest => pat.isPrefixOf (c :: rest) || listHasSub pat rest

/-- `String.prototype.includes` on strings. -/
def strContains (s pat : String) : Bool :=
  listHasSub pat.data s.data

/-- `v.startsWith(pre)`: a method call, so a non-string receiver throws. -/
def jsStartsWith (v : JSVal) (pre : String) : Except JSVal Bool :=
  match v with
  | .string s => .ok (strStartsWith s pre)
  | _ => .error (typeErrorVal "startsWith is not a function")

/-- `v.includes(pat)`: a method call, so a non-string receiver throws. -/
def jsIncludes (v : JSVal) (pat : String) : Except JSVal Bool :=
  match v with
  | .string s => .ok (strContains s pat)
  | _ => .error (typeErrorVal "includes is not a function")

/-- Own enumerable properties taken by an object spread `{...v}`: an object
spreads its properties, a string spreads its indexed characters, other
primitives spread nothing. -/
def spreadProps : JSVal → List (String × JSVal)
  | .object _ props => props
  | .string s => s.data.enum.map (fun p => (toString p.1, JSVal.string (String.singleton p.2)))
  | _ => []

/-- Write (or append) one key in a property list, as a later spread entry
overriding an earlier one does. -/
def setProp (ps : List (String × JSVal)) (k : String) (v : JSVal) : List (String × JSVal) :=
  if ps.any (fun kv => kv.1 = k) then
    ps.map (fun kv => if kv.1 = k then (k, v) else kv)
  else
    ps ++ [(k, v)]

/-- Property list of `{...a, ...b}` given the two spread lists. -/
def mergeProps (a b : List (String × JSVal)) : List (String × JSVal) :=
  b.foldl (fun acc kv => setProp acc kv.1 kv.2) a

/-- The keys of an object value, in property order. -/
def propKeys : JSVal → List String
  | .object _ props => props.map Prod.fst
  | _ => []

/-- `{}`. -/
def emptyObjVal : JSVal := .object .plain []

/-- Stands for the stack string produced by `Error.captureStackTrace`. -/
def capturedStackTraceVal : JSVal := .string "(stack captured at construction)"

/-- `isHanaError(err)` from `normalizeError.js`:
`err.code && err.message && (err.code.startsWith("HY") ||
err.code.startsWith("3A") || err.message.includes("SAP DBTech"))`,
with JavaScript short-circuit evaluation (only truthiness of the result is
ever used, at the classifier's `if`). -/
def isHanaError (err : JSVal) : Except JSVal Bool :=
  match err.getProp "code" with
  | .error e => .error e
  | .ok code =>
    if truthy code then
      match err.getProp "message" with
      | .error e => .error e
      | .ok msg =>
        if truthy msg then
          match jsStartsWith code "HY" with
          | .error e => .error e
          | .ok true => .ok true
          | .ok false =>
            match jsStartsWith code "3A" with
            | .error e => .error e
            | .ok true => .ok true
            | .ok false => jsIncludes msg "SAP DBTech"
        else .ok false
    else .ok false

/-- `isCpiHttpError(err)` from `normalizeError.js`:
`err.response && err.response.status`. -/
def isCpiHttpError (err : JSVal) : Except JSVal Bool :=
  match err.getProp "response" with
  | .error e => .error e
  | .ok resp =>
    if truthy resp then
      match resp.getProp "status" with
      | .error e => .error e
      | .ok st => .ok (truthy st)
    else .ok false

/-- The parameter object destructured by the request-context-aware
`CustomError` constructor: `{message, status, code, target, details,
module, internal, req}`. Missing keys destructure to `undefined`. -/
structure CEParams where
  message : JSVal := .undefV
  status : JSVal := .undefV
  code : JSVal := .undefV
  target : JSVal := .undefV
  details : JSVal := .undefV
  module : JSVal := .undefV
  internal : JSVal := .undefV
  req : JSVal := .undefV

/-- `this.message` after `super(message)`: the `Error` constructor leaves
`message` as the empty string when the argument is `undefined` and
string-coerces it otherwise. -/
def errorMessageVal : JSVal → JSVal
  | .undefV => .string ""
  | v => .string (jsToString v)

/-- `this.constructor.name` for each class in the model. -/
def classNameOf : JSClass → String
  | .plain => "Object"
  | .syntaxError => "SyntaxError"
  | .typeError => "TypeError"
  | .referenceError => "ReferenceError"
  | .rangeError => "RangeError"
  | .customError => "CustomError"
  | .validationError => "ValidationError"
  | .authorizationError => "AuthorizationError"
  | .businessLogicError => "BusinessLogicError"

/-- The substrings whose stack frames the constructor strips:
`normalizeError`, `toCdsError`, `@custom/error-service`. -/
def stackFrameMarkers : List String :=
  ["normalizeError", "toCdsError", "@custom/error-service"]

/-- The stack-trace logic of the request-context-aware constructor: when
`internal instanceof Error && internal.stack`, split the stack into lines,
drop the frames containing a marker, and rejoin keeping the original first
line; otherwise capture a fresh stack. Splitting a truthy non-string stack
would throw, as `split` on it does in JavaScript. -/
def computeStack (internalVal : JSVal) : Except JSVal JSVal :=
  if isInstanceOfError internalVal && truthy (fieldOf internalVal "stack") then
    match fieldOf internalVal "stack" with
    | .string s =>
      let stackLines := s.splitOn "\n"
      let filtered := stackLines.filter
        (fun line => !(stackFrameMarkers.any (fun mark => strContains line mark)))
      .ok (.string (String.intercalate "\n" (stackLines.headD "" :: filtered.drop 1)))
    | _ => .error (typeErrorVal "stack split is not a function")
  else
    .ok capturedStackTraceVal

/-- The request-context snapshot the constructor merges into `internal`
when a request is supplied: `{data: req.data, user: req.user, event:
req.event, url: req._?.req?.originalUrl || "", method: req._?.req?.method
|| ""}`. -/
def reqContextProps (req : JSVal) : List (String × JSVal) :=
  [("data", fieldOf req "data"),
   ("user", fieldOf req "user"),
   ("event", fieldOf req "event"),
   ("url", jsOr (optGet (optGet (fieldOf req "_") "req") "originalUrl") (.string "")),
   ("method", jsOr (optGet (optGet (fieldOf req "_") "req") "method") (.string ""))]

/-- The request-context-aware `CustomError` constructor (the version the
classifier module requires): defaults `status`/`code`/`target`/`details`/
`module`, always builds `this.internal` as the object
`{...(internal || {}), ...(req ? requestSnapshot : {})}`, and computes the
stack trace. `cls` is the dynamic class of the instance being built. -/
def mkCustomErrorNew (cls : JSClass) (p : CEParams) : Except JSVal JSVal :=
  match computeStack p.internal with
  | .error e => .error e
  | .ok stackVal =>
    .ok (JSVal.object cls
      [("name", .string (classNameOf cls)),
       ("message", errorMessageVal p.message),
       ("status", jsOr p.status (.number 500)),
       ("code", jsOr p.code (.string "GENERIC_ERROR")),
       ("target", jsOr p.target .nul),
       ("details", jsOr p.details .nul),
       ("module", jsOr p.module .nul),
       ("internal", .object .plain
         (mergeProps (spreadProps (jsOr p.internal emptyObjVal))
           (if truthy p.req then reqContextProps p.req else []))),
       ("stack", stackVal)])

/-- `normalizeError(err, module, req)`: the classifier, an ordered
first-match chain — CustomError pass-through, SyntaxError, runtime errors
(TypeError/ReferenceError/RangeError), HANA, CPI/HTTP, unknown fallback. -/
def normalizeError (err moduleArg req : JSVal) : Except JSVal JSVal :=
  if isInstanceOfCustomError err then .ok err
  else if classTagIs err .syntaxError then
    mkCustomErrorNew .customError
      { message := .string "Invalid Syntax Encountered", status := .number 500,
        code := .string "SYNTAX_ERR", module := moduleArg, internal := err, req := req }
  else if classTagIs err .typeError || classTagIs err .referenceError || classTagIs err .rangeError then
    mkCustomErrorNew .customError
      { message := .string "Unexpected server error", status := .number 500,
        code := .string "RUNTIME_ERR", module := moduleArg, internal := err, req := req }
  else
    match isHanaError err with
    | .error e => .error e
    | .ok true =>
      mkCustomErrorNew .customError
        { message := .string "Database execution failed", status := .number 500,
          code := .string "HANA_DB_ERR", module := moduleArg, internal := err, req := req }
    | .ok false =>
      match isCpiHttpError err with
      | .error e => .error e
      | .ok true =>
        match err.getProp "response" with
        | .error e => .error e
        | .ok resp =>
          match resp.getProp "status" with
          | .error e => .error e
          | .ok st =>
            match resp.getProp "data" with
            | .error e => .error e
            | .ok d =>
              match resp.getProp "headers" with
              | .error e => .error e
              | .ok hs =>
                mkCustomErrorNew .customError
                  { message := .string ("CPI request failed with status " ++ jsToString st),
                    status := st, code := .string "CPI_HTTP_ERR", module := moduleArg,
                    internal := .object .plain [("status", st), ("data", d), ("headers", hs)],
                    req := req }
      | .ok false =>
        match err.getProp "message" with
        | .error e => .error e
        | .ok msg =>
          mkCustomErrorNew .customError
            { message := jsOr msg (.string "Unknown failure"), status := .number 500,
              code := .string "UNKNOWN_ERR", module := moduleArg, internal := err, req := req }

/-- `CustomError.toCdsError()` of the request-context-aware class: the
minimal external view `{message, status, code, target, details}`. -/
def toCdsError (self : JSVal) : JSVal :=
  .object .plain
    [("message", fieldOf self "message"),
     ("status", fieldOf self "status"),
     ("code", fieldOf self "code"),
     ("target", fieldOf self "target"),
     ("details", fieldOf self "details")]

/-- The parameter object destructured by the legacy constructor at
`lib/core/CustomError.js`: `{message, status, code, target, details,
module, internal}` (no `req`). -/
structure CEParamsLegacy where
  message : JSVal := .undefV
  status : JSVal := .undefV
  code : JSVal := .undefV
  target : JSVal := .undefV
  details : JSVal := .undefV
  module : JSVal := .undefV
  internal : JSVal := .undefV

/-- The legacy `CustomError` constructor (`lib/core/CustomError.js`): same
defaulting, but `this.internal = internal || null` and no request-context
merging; the stack is always freshly captured. This is the base class the
three classes in `lib/errorTypes/` extend. -/
def mkCustomErrorLegacy (cls : JSClass) (p : CEParamsLegacy) : JSVal :=
  JSVal.object cls
    [("name", .string (classNameOf cls)),
     ("message", errorMessageVal p.message),
     ("status", jsOr p.status (.number 500)),
     ("code", jsOr p.code (.string "GENERIC_ERROR")),
     ("target", jsOr p.target .nul),
     ("details", jsOr p.details .nul),
     ("module", jsOr p.module .nul),
     ("internal", jsOr p.internal .nul),
     ("stack", capturedStackTraceVal)]

/-- `new ValidationError(params)` (`lib/errorTypes/ValidationError.js`):
destructures `{message, status, module, internal, req}` and calls
`super({message, status: status || 400, code: "VALIDATION_ERR", module,
internal: internal || "Internal", req})`. The literal `code` is not
overridable, and the base constructor ignores the extra `req` key. -/
def newValidationError (params : JSVal) : JSVal :=
  mkCustomErrorLegacy .validationError
    { message := fieldOf params "message",
      status := jsOr (fieldOf params "status") (.number 400),
      code := .string "VALIDATION_ERR",
      module := fieldOf params "module",
      internal := jsOr (fieldOf params "internal") (.string "Internal") }

/-- `new AuthorizationError(params)`
(`lib/errorTypes/AuthorizationError.js`): destructures `{message, status,
module, req, internal, code, details, target}` and defaults
`message`/`status`/`code` to the authorization defaults. -/
def newAuthorizationError (params : JSVal) : JSVal :=
  mkCustomErrorLegacy .authorizationError
    { message := jsOr (fieldOf params "message")
        (.string "You are not authorized to perform this action"),
      status := jsOr (fieldOf params "status") (.number 401),
      code := jsOr (fieldOf params "code") (.string "AUTHORIZATION_ERR"),
      module := fieldOf params "module",
      internal := fieldOf params "internal",
      details := fieldOf params "details",
      target := fieldOf params "target" }

/-- `new BusinessLogicError(params)`
(`lib/errorTypes/BusinessLogicError.js`): destructures `{message, module,
req, internal, code, details, target, status}` and defaults
`message`/`status`/`code` to the business-rule defaults. -/
def newBusinessLogicError (params : JSVal) : JSVal :=
  mkCustomErrorLegacy .businessLogicError
    { message := jsOr (fieldOf params "message")
        (.string "Business rule violation occurred"),
      status := jsOr (fieldOf params "status") (.number 422),
      code := jsOr (fieldOf params "code") (.string "BUSINESS_ERR"),
      module := fieldOf params "module",
      internal := fieldOf params "internal",
      details := fieldOf params "details",
      target := fieldOf params "target" }

/-- JSON string escaping for the model serializer. -/
def jsonEscape (s : String) : String :=
  String.join (s.data.map (fun c =>
    if c = '"' then "\\\"" else if c = '\\' then "\\\\" else String.singleton c))

mutual

/-- `JSON.stringify` on the model values (`none` is JavaScript
`undefined`, i.e. the value is not serializable). -/
def jsonStringify : JSVal → Option String
  | .undefV => none
  | .nul => some "null"
  | .boolean b => some (cond b "true" "false")
  | .number n => some (toString n)
  | .string s => some ("\"" ++ jsonEscape s ++ "\"")
  | .object _ props => some ("\x7b" ++ String.intercalate "," (jsonFields props) ++ "\x7d")

/-- Serialized `"key":value` members of an object, skipping
non-serializable values as `JSON.stringify` does. -/
def jsonFields : List (String × JSVal) → List String
  | [] => []
  | (k, v) :: rest =>
    match jsonStringify v with
    | none => jsonFields rest
    | some s => ("\"" ++ jsonEscape k ++ "\":" ++ s) :: jsonFields rest

end

/-- Outcome oracle for the external transactional collaborator used by
`logError`: for each call site, `none` means the call returns normally and
`some e` means it throws (rejects with) `e`. `commitTry` is the
`tx.commit()` inside the `try` block, `commitFinally` the unconditional
`tx.commit()` in the `finally` block. -/
structure TxBehavior where
  txCreate : Option JSVal := none
  beginR : Option JSVal := none
  runR : Option JSVal := none
  commitTry : Option JSVal := none
  commitFinally : Option JSVal := none

/-- The row `logError` inserts: dates split from the ISO timestamp, the
error fields, and `details`/`internal` as `JSON.stringify(x || {})`. -/
structure ErrorLogRow where
  crtdt : String
  crttm : String
  message : JSVal
  status : JSVal
  code : JSVal
  target : JSVal
  details : Option String
  module : JSVal
  internal : Option String
  stack : JSVal

/-- The insert payload built by `logError` from the error instance and the
current ISO timestamp `now` (`new Date().toISOString()`). -/
def mkRow (self : JSVal) (now : String) : ErrorLogRow :=
  { crtdt := (now.splitOn "T").getD 0 "",
    crttm := (((now.splitOn "T").getD 1 "").splitOn ".").getD 0 "",
    message := fieldOf self "message",
    status := fieldOf self "status",
    code := fieldOf self "code",
    target := fieldOf self "target",
    details := jsonStringify (jsOr (fieldOf self "details") emptyObjVal),
    module := fieldOf self "module",
    internal := jsonStringify (jsOr (fieldOf self "internal") emptyObjVal),
    stack := fieldOf self "stack" }

/-- Observable outcome of one `logError` call: `thrown` is the rejection
that escapes `logError` (if any), `caught` is the failure swallowed by its
`catch` block and logged to the console, `runRow` is the payload accepted
by `tx.run(INSERT...)` when that call succeeded. -/
structure LogResult where
  thrown : Option JSVal
  caught : Option JSVal
  runRow : Option ErrorLogRow

/-- `CustomError.logError({cds, tableName})` of the request-context-aware
class: `tx = null; try { tx = cds.transaction(); await tx.begin(); if
(tableName && cds) { await tx.run(INSERT...payload) } await tx.commit() }
catch (e) { console.error(...) } finally { if (tx) await tx.commit() }`.
Failures inside the `try` are swallowed into `caught`; a rejection of the
`finally`-block commit (reached whenever `tx` was assigned) escapes into
`thrown`. -/
def logError (self cdsVal tableName : JSVal) (b : TxBehavior) (now : String) : LogResult :=
  match b.txCreate with
  | some e => { thrown := none, caught := some e, runRow := none }
  | none =>
    let afterTry : Option JSVal × Option ErrorLogRow :=
      match b.beginR with
      | some e => (some e, none)
      | none =>
        if truthy tableName && truthy cdsVal then
          match b.runR with
          | some e => (some e, none)
          | none =>
            match b.commitTry with
            | some e => (some e, some (mkRow self now))
            | none => (none, some (mkRow self now))
        else
          match b.commitTry with
          | some e => (some e, none)
          | none => (none, none)
    match b.commitFinally with
    | some e => { thrown := some e, caught := afterTry.1, runRow := afterTry.2 }
    | none => { thrown := none, caught := afterTry.1, runRow := afterTry.2 }

/-- The options object taken by `handleErrors(fn, options)`: the notifier
is modelled as an optional callable (its truthiness is `isSome`, its
behaviour the contained function); `cds`, `tableName`, `module`, `env` are
plain values. -/
structure WrapOptions where
  notify : Option (JSVal → Except JSVal JSVal) := none
  cdsVal : JSVal := .undefV
  tableName : JSVal := .undefV
  module : JSVal := .undefV
  env : JSVal := .undefV

/-- Observable behaviour of one invocation of the wrapped handler:
`result` is what the wrapped handler resolves or rejects with,
`errorCalls` the arguments of the `req.error(...)` calls, `notifyCalls`
the arguments passed to the notifier, `logResults` the persistence
attempts. -/
structure WrapOutcome where
  result : Except JSVal JSVal
  errorCalls : List JSVal
  notifyCalls : List JSVal
  logResults : List LogResult

/-- Tail of the wrapper's catch block after the optional DB logging:
`if (notify) await notify({env: env || "", error: normalized});
req.error(normalized.toCdsError())`. A notifier rejection escapes the
wrapped handler. -/
def handleErrorsReport (normalized : JSVal) (logs : List LogResult) (opts : WrapOptions) : WrapOutcome :=
  match opts.notify with
  | some f =>
    let arg := JSVal.object .plain [("env", jsOr opts.env (.string "")), ("error", normalized)]
    match f arg with
    | .error e =>
      { result := .error e, errorCalls := [], notifyCalls := [arg], logResults := logs }
    | .ok _ =>
      { result := .ok .undefV, errorCalls := [toCdsError normalized],
        notifyCalls := [arg], logResults := logs }
  | none =>
    { result := .ok .undefV, errorCalls := [toCdsError normalized],
      notifyCalls := [], logResults := logs }

/-- `handleErrors(fn, options)` applied to a request
(`lib/utils/handleErrorsWrapper.js`): on success the handler result passes
through; on a throw the wrapper calls `normalizeError({err, module, req})`
— note: a single object argument passed to the positional classifier — then
optionally persists (`if (cds && tableName) await normalized.logError(...)`,
a rejection of which escapes), optionally notifies, and finally calls
`req.error(normalized.toCdsError())`. -/
def handleErrors (fn : JSVal → Except JSVal JSVal) (opts : WrapOptions)
    (db : TxBehavior) (now : String) (req : JSVal) : WrapOutcome :=
  match fn req with
  | .ok v => { result := .ok v, errorCalls := [], notifyCalls := [], logResults := [] }
  | .error err =>
    match normalizeError
        (JSVal.object .plain [("err", err), ("module", opts.module), ("req", req)])
        .undefV .undefV with
    | .error e =>
      { result := .error e, errorCalls := [], notifyCalls := [], logResults := [] }
    | .ok normalized =>
      if truthy opts.cdsVal && truthy opts.tableName then
        let lr := logError normalized opts.cdsVal opts.tableName db now
        match lr.thrown with
        | some e =>
          { result := .error e, errorCalls := [], notifyCalls := [], logResults := [lr] }
        | none => handleErrorsReport normalized [lr] opts
      else
        handleErrorsReport normalized [] opts

/-! ## Shared lemmas -/

/-- Because the wrapper passes the single object `{err, module, req}` to
the positional classifier, the classifier sees an object with none of the
keys it inspects and lands in the UNKNOWN_ERR fallback, for every caught
value, module and request. -/
theorem normalizeError_bundle_eq (a b c : JSVal) :
    normalizeError (JSVal.object .plain [("err", a), ("module", b), ("req", c)]) .undefV .undefV =
      Except.ok (JSVal.object .customError
        [("name", .string "CustomError"),
         ("message", .string "Unknown failure"),
         ("status", .number 500),
         ("code", .string "UNKNOWN_ERR"),
         ("target", .nul),
         ("details", .nul),
         ("module", .nul),
         ("internal", .object .plain [("err", a), ("module", b), ("req", c)]),
         ("stack", capturedStackTraceVal)]) := rfl

/-- `toCdsError` always produces an object with exactly the five external
keys, in this order. -/
theorem toCdsError_keys (v : JSVal) :
    propKeys (toCdsError v) = ["message", "status", "code", "target", "details"] := rfl

/-- If the `finally`-block commit returns normally, `logError` never
rejects. -/
theorem logError_thrown_none (self c t : JSVal) (b : TxBehavior) (now : String)
    (h : b.commitFinally = none) : (logError self c t b now).thrown = none := by
  unfold logError
  cases htx : b.txCreate with
  | some e => rfl
  | none => rw [h]

/-- A successful run of the request-context-aware constructor yields an
object of the requested class. -/
theorem mkCustomErrorNew_instance (p : CEParams) (v : JSVal)
    (h : mkCustomErrorNew .customError p = Except.ok v) :
    isInstanceOfCustomError v = true := by
  unfold mkCustomErrorNew at h
  cases hcs : computeStack p.internal with
  | error e => rw [hcs] at h; cases h
  | ok s => rw [hcs] at h; injection h with h; subst h; rfl

/-- When every configured notifier call resolves, the tail of the catch
block resolves normally and performs exactly one `req.error` call, with the
external view of the normalized error. -/
theorem handleErrorsReport_ok (normalized : JSVal) (logs : List LogResult)
    (opts : WrapOptions)
    (hnotify : ∀ f, opts.notify = some f → ∀ v, ∃ r, f v = Except.ok r) :
    (handleErrorsReport normalized logs opts).result = Except.ok JSVal.undefV ∧
    (handleErrorsReport normalized logs opts).errorCalls = [toCdsError normalized] := by
  unfold handleErrorsReport
  cases hn : opts.notify with
  | none => exact ⟨rfl, rfl⟩
  | some f =>
    obtain ⟨r, hr⟩ := hnotify f hn
      (JSVal.object .plain [("env", jsOr opts.env (.string "")), ("error", normalized)])
    simp [hr]

/-- Unfolding lemma for truthiness of strings. -/
theorem truthy_string (s : String) : truthy (JSVal.string s) = (s != "") := rfl

/-- Unfolding lemma for truthiness of numbers. -/
theorem truthy_number (n : Int) : truthy (JSVal.number n) = (n != 0) := rfl

/-- `undefined` is falsy. -/
theorem truthy_undef : truthy JSVal.undefV = false := rfl

/-- `null` is falsy. -/
theorem truthy_nul : truthy JSVal.nul = false := rfl

/-- Objects are truthy. -/
theorem truthy_object (c : JSClass) (ps : List (String × JSVal)) :
    truthy (JSVal.object c ps) = true := rfl

/-! ## Claim theorems -/

/-- Claim C1 (code bug). The wrapper does not hand the classifier the
caught value, module and request as the three positional arguments the
classifier declares: it passes the single object `{err, module, req}`.
Consequently a handler that throws a `ValidationError` — an instance of
`CustomError` that the classifier would return unchanged as 400 /
VALIDATION_ERR — is reported through `req.error` as the fallback
classification 500 / UNKNOWN_ERR / "Unknown failure" instead. -/
theorem wrapper_misroutes_thrown_validationError :
    isInstanceOfCustomError
      (newValidationError (.object .plain [("message", .string "Email is required")])) = true ∧
    (handleErrors
      (fun _ => .error (newValidationError (.object .plain [("message", .string "Email is required")])))
      { module := .string "DSM" } {} "2026-01-01T00:00:00.000Z" .undefV).result = .ok .undefV ∧
    (handleErrors
      (fun _ => .error (newValidationError (.object .plain [("message", .string "Email is required")])))
      { module := .string "DSM" } {} "2026-01-01T00:00:00.000Z" .undefV).errorCalls.map
        (fun v => (fieldOf v "status", fieldOf v "code", fieldOf v "message")) =
      [(JSVal.number 500, JSVal.string "UNKNOWN_ERR", JSVal.string "Unknown failure")] :=
  ⟨rfl, rfl, rfl⟩

/-- Claim C2 (code bug). A persistence failure is indeed caught and logged
by the `catch` block of `logError`, but the unconditional `tx.commit()` in
the `finally` block is unprotected: with a collaborator whose `INSERT`
rejects and whose subsequent commit of that failed transaction also
rejects, `logError` re-throws out of its `finally` block, the wrapped
handler rejects, and the `req.error` report never happens. -/
theorem logError_finally_commit_rethrows :
    (handleErrors (fun _ => .error (.string "boom"))
      { cdsVal := .object .plain [], tableName := .string "ERRORLOGS" }
      { runR := some (.string "insert failed"), commitFinally := some (.string "commit failed") }
      "2026-01-01T00:00:00.000Z" .undefV).result = .error (.string "commit failed") ∧
    (handleErrors (fun _ => .error (.string "boom"))
      { cdsVal := .object .plain [], tableName := .string "ERRORLOGS" }
      { runR := some (.string "insert failed"), commitFinally := some (.string "commit failed") }
      "2026-01-01T00:00:00.000Z" .undefV).errorCalls = [] ∧
    (handleErrors (fun _ => .error (.string "boom"))
      { cdsVal := .object .plain [], tableName := .string "ERRORLOGS" }
      { runR := some (.string "insert failed"), commitFinally := some (.string "commit failed") }
      "2026-01-01T00:00:00.000Z" .undefV).logResults.map LogResult.caught =
      [some (.string "insert failed")] :=
  ⟨rfl, rfl, rfl⟩

/-- Claim C3, counterexample. With a configured notifier that rejects, the
wrapped handler re-throws the notifier failure and the error-report hook is
never called — so as stated (for every invocation, never re-throws, hook
called exactly once) the claim is false. -/
theorem wrapper_rethrows_when_notifier_throws :
    (handleErrors (fun _ => .error (.string "boom"))
      { notify := some (fun _ => .error (.string "smtp down")) } {} "" .undefV).result =
      .error (.string "smtp down") ∧
    (handleErrors (fun _ => .error (.string "boom"))
      { notify := some (fun _ => .error (.string "smtp down")) } {} "" .undefV).errorCalls = [] :=
  ⟨rfl, rfl⟩

/-- Claim C3, amended. Provided the persistence collaborator's
`finally`-block commit returns normally and any configured notifier
resolves, an invocation whose inner handler throws never re-throws and
calls the error-report hook exactly once, with an object carrying exactly
the fields message, status, code, target, details — never `internal`,
never `stack`. -/
theorem wrapper_reports_exactly_once (fn : JSVal → Except JSVal JSVal)
    (opts : WrapOptions) (db : TxBehavior) (now : String) (req e : JSVal)
    (hthrow : fn req = Except.error e)
    (hdb : db.commitFinally = none)
    (hnotify : ∀ f, opts.notify = some f → ∀ v, ∃ r, f v = Except.ok r) :
    (handleErrors fn opts db now req).result = Except.ok JSVal.undefV ∧
    (handleErrors fn opts db now req).errorCalls.map propKeys =
      [["message", "status", "code", "target", "details"]] := by
  unfold handleErrors
  simp only [hthrow, normalizeError_bundle_eq]
  by_cases hlog : (truthy opts.cdsVal && truthy opts.tableName) = true
  · simp only [if_pos hlog, logError_thrown_none _ _ _ _ _ hdb]
    obtain ⟨h1, h2⟩ := handleErrorsReport_ok _ _ _ hnotify
    exact ⟨h1, by rw [h2]; simp [toCdsError_keys]⟩
  · simp only [if_neg hlog]
    obtain ⟨h1, h2⟩ := handleErrorsReport_ok _ _ _ hnotify
    exact ⟨h1, by rw [h2]; simp [toCdsError_keys]⟩

/-- Claim C3, witness: the amended theorem applied to a concrete throwing
handler with neither persistence nor notifier configured. -/
theorem wrapper_reports_exactly_once_witness :
    (handleErrors (fun _ => .error (.string "boom")) {} {} "" .undefV).result =
      Except.ok JSVal.undefV ∧
    (handleErrors (fun _ => .error (.string "boom")) {} {} "" .undefV).errorCalls.map propKeys =
      [["message", "status", "code", "target", "details"]] :=
  wrapper_reports_exactly_once _ {} {} "" .undefV (.string "boom") rfl rfl
    (fun _ hf => Option.noConfusion hf)

/-- Claim C9. The classifier has an implicit non-null precondition: on
`null` or `undefined` it throws a `TypeError` (raised by the property read
`err.code` inside the database-error detector) instead of returning a
structured error. -/
theorem normalizeError_throws_on_nullish (m r : JSVal) :
    (∃ e, normalizeError JSVal.nul m r = Except.error e ∧
      classTagOf e = some JSClass.typeError) ∧
    (∃ e, normalizeError JSVal.undefV m r = Except.error e ∧
      classTagOf e = some JSClass.typeError) :=
  ⟨⟨_, rfl, rfl⟩, ⟨_, rfl, rfl⟩⟩

/-- Claim C4, counterexample. The repository also ships the legacy
constructor (`lib/core/CustomError.js`), which sets
`this.internal = internal || null`: constructing with no arguments leaves
`internal` equal to `null`, so the claim as stated — every constructed
CustomError has non-null `internal` — fails on that constructor. -/
theorem legacy_constructor_internal_null :
    fieldOf (mkCustomErrorLegacy .customError {}) "internal" = JSVal.nul := rfl

/-- Claim C4, amended. For the request-context-aware constructor (the one
the classifier builds all its results with), `internal` is always an
object after construction — an empty object at minimum — for every
combination of constructor arguments. -/
theorem customError_internal_always_object (cls : JSClass) (p : CEParams) (v : JSVal)
    (h : mkCustomErrorNew cls p = Except.ok v) :
    ∃ ps, fieldOf v "internal" = JSVal.object .plain ps := by
  unfold mkCustomErrorNew at h
  cases hcs : computeStack p.internal with
  | error e => rw [hcs] at h; cases h
  | ok s => rw [hcs] at h; injection h with h; subst h; exact ⟨_, rfl⟩

/-- Claim C4, witness: the amended theorem applied to a construction with
no caller-supplied internal data and no request context, where `internal`
is the empty object. -/
theorem customError_internal_always_object_witness :
    ∃ v, mkCustomErrorNew .customError {} = Except.ok v ∧
      ∃ ps, fieldOf v "internal" = JSVal.object .plain ps :=
  ⟨_, rfl, customError_internal_always_object .customError {} _ rfl⟩

/-- Claim C5. Classification is idempotent: whenever the classifier
succeeds, running it again on the result returns the result itself, and a
value that is already a CustomError instance is returned unchanged (the
very same value, hence the same message, status and code). -/
theorem normalizeError_idempotent (err m r e : JSVal)
    (h : normalizeError err m r = Except.ok e) :
    normalizeError e m r = Except.ok e ∧ (isInstanceOfCustomError err = true → e = err) := by
  by_cases hc : isInstanceOfCustomError err = true
  · unfold normalizeError at h
    rw [if_pos hc] at h
    injection h with h
    subst h
    exact ⟨by unfold normalizeError; rw [if_pos hc], fun _ => rfl⟩
  · have he : isInstanceOfCustomError e = true := by
      unfold normalizeError at h
      rw [if_neg hc] at h
      split at h
      · exact mkCustomErrorNew_instance _ _ h
      · split at h
        · exact mkCustomErrorNew_instance _ _ h
        · split at h
          · cases h
          · exact mkCustomErrorNew_instance _ _ h
          · split at h
            · cases h
            · split at h
              · cases h
              · split at h
                · cases h
                · split at h
                  · cases h
                  · split at h
                    · cases h
                    · exact mkCustomErrorNew_instance _ _ h
            · split at h
              · cases h
              · exact mkCustomErrorNew_instance _ _ h
    exact ⟨by unfold normalizeError; rw [if_pos he], fun hcc => absurd hcc hc⟩

/-- Claim C5, witness: a concrete CustomError instance passes through the
classifier unchanged, and re-classifying the result is a fixed point. -/
theorem normalizeError_idempotent_witness :
    normalizeError (mkCustomErrorLegacy .customError {}) .undefV .undefV =
      Except.ok (mkCustomErrorLegacy .customError {}) ∧
    (isInstanceOfCustomError (mkCustomErrorLegacy .customError {}) = true →
      mkCustomErrorLegacy .customError {} = mkCustomErrorLegacy .customError {}) :=
  normalizeError_idempotent _ _ _ _ rfl

/-- Claim C6, counterexample. `ValidationError` does not let the caller
override `code`: its constructor does not even destructure a `code`
parameter and always passes the literal "VALIDATION_ERR" to the base
constructor, so constructing with `{code: "CUSTOM_CODE"}` still yields
code "VALIDATION_ERR". -/
theorem validationError_code_not_overridable :
    fieldOf (newValidationError (.object .plain
      [("message", .string "m"), ("code", .string "CUSTOM_CODE")])) "code" =
      JSVal.string "VALIDATION_ERR" ∧
    JSVal.string "VALIDATION_ERR" ≠ JSVal.string "CUSTOM_CODE" :=
  ⟨rfl, by simp⟩

/-- Claim C6, amended. The three variants carry the claimed defaults
(400/"VALIDATION_ERR", 401/"AUTHORIZATION_ERR" with the default
authorization message, 422/"BUSINESS_ERR"), and AuthorizationError and
BusinessLogicError honour caller overrides of message, status, code,
target and details; ValidationError honours message and status overrides
but its `code` is fixed at "VALIDATION_ERR" and it ignores caller-supplied
`code`, `target` and `details`. -/
theorem errorTypes_defaults_and_overrides (msg c : String) (s : Int) (t : JSVal)
    (hmsg : msg ≠ "") (hc : c ≠ "") (hs : s ≠ 0) (ht : truthy t = true) :
    (fieldOf (newValidationError .undefV) "status" = JSVal.number 400 ∧
     fieldOf (newValidationError .undefV) "code" = JSVal.string "VALIDATION_ERR") ∧
    (fieldOf (newAuthorizationError .undefV) "status" = JSVal.number 401 ∧
     fieldOf (newAuthorizationError .undefV) "code" = JSVal.string "AUTHORIZATION_ERR" ∧
     fieldOf (newAuthorizationError .undefV) "message" =
       JSVal.string "You are not authorized to perform this action") ∧
    (fieldOf (newBusinessLogicError .undefV) "status" = JSVal.number 422 ∧
     fieldOf (newBusinessLogicError .undefV) "code" = JSVal.string "BUSINESS_ERR") ∧
    (fieldOf (newValidationError (.object .plain
        [("message", .string msg), ("status", .number s)])) "message" = JSVal.string msg ∧
     fieldOf (newValidationError (.object .plain
        [("message", .string msg), ("status", .number s)])) "status" = JSVal.number s) ∧
    (fieldOf (newAuthorizationError (.object .plain
        [("message", .string msg), ("status", .number s), ("code", .string c),
         ("target", t), ("details", t)])) "message" = JSVal.string msg ∧
     fieldOf (newAuthorizationError (.object .plain
        [("message", .string msg), ("status", .number s), ("code", .string c),
         ("target", t), ("details", t)])) "status" = JSVal.number s ∧
     fieldOf (newAuthorizationError (.object .plain
        [("message", .string msg), ("status", .number s), ("code", .string c),
         ("target", t), ("details", t)])) "code" = JSVal.string c ∧
     fieldOf (newAuthorizationError (.object .plain
        [("message", .string msg), ("status", .number s), ("code", .string c),
         ("target", t), ("details", t)])) "target" = t ∧
     fieldOf (newAuthorizationError (.object .plain
        [("message", .string msg), ("status", .number s), ("code", .string c),
         ("target", t), ("details", t)])) "details" = t) ∧
    (fieldOf (newBusinessLogicError (.object .plain
        [("message", .string msg), ("status", .number s), ("code", .string c),
         ("target", t), ("details", t)])) "message" = JSVal.string msg ∧
     fieldOf (newBusinessLogicError (.object .plain
        [("message", .string msg), ("status", .number s), ("code", .string c),
         ("target", t), ("details", t)])) "status" = JSVal.number s ∧
     fieldOf (newBusinessLogicError (.object .plain
        [("message", .string msg), ("status", .number s), ("code", .string c),
         ("target", t), ("details", t)])) "code" = JSVal.string c ∧
     fieldOf (newBusinessLogicError (.object .plain
        [("message", .string msg), ("status", .number s), ("code", .string c),
         ("target", t), ("details", t)])) "target" = t ∧
     fieldOf (newBusinessLogicError (.object .plain
        [("message", .string msg), ("status", .number s), ("code", .string c),
         ("target", t), ("details", t)])) "details" = t) ∧
    (fieldOf (newValidationError (.object .plain
        [("code", .string c), ("target", t), ("details", t)])) "code" =
       JSVal.string "VALIDATION_ERR" ∧
     fieldOf (newValidationError (.object .plain
        [("code", .string c), ("target", t), ("details", t)])) "target" = JSVal.nul ∧
     fieldOf (newValidationError (.object .plain
        [("code", .string c), ("target", t), ("details", t)])) "details" = JSVal.nul) := by
  simp [newValidationError, newAuthorizationError, newBusinessLogicError,
    mkCustomErrorLegacy, fieldOf, lookupProp, jsOr, errorMessageVal, jsToString,
    truthy_string, truthy_number, truthy_undef, truthy_nul, truthy_object,
    bne_iff_ne, hmsg, hc, hs, ht]

/-- Claim C6, witness: the amended theorem at concrete override values. -/
theorem errorTypes_defaults_and_overrides_witness :
    "custom message" ≠ "" ∧ "AUTH_OVERRIDE" ≠ "" ∧ (403 : Int) ≠ 0 ∧
      truthy (JSVal.string "tgt") = true ∧
    fieldOf (newAuthorizationError (.object .plain
      [("message", .string "custom message"), ("status", .number 403),
       ("code", .string "AUTH_OVERRIDE"), ("target", JSVal.string "tgt"),
       ("details", JSVal.string "tgt")])) "code" = JSVal.string "AUTH_OVERRIDE" :=
  ⟨by decide, by decide, by decide, rfl,
    ((((((errorTypes_defaults_and_overrides "custom message" "AUTH_OVERRIDE" 403
      (JSVal.string "tgt") (by decide) (by decide) (by decide) rfl).2).2).2).2).1).2.2.1⟩

/-- Normalization of a value whose only recognizable shape is a nested
response object, fully computed (`r` falsy, so no request snapshot is
merged into `internal`). -/
theorem normalizeError_cpi_eq (st : Int) (d hs m r : JSVal)
    (hst : (st != 0) = true) (hr : truthy r = false) :
    normalizeError (.object .plain [("response", .object .plain
      [("status", .number st), ("data", d), ("headers", hs)])]) m r =
    Except.ok (JSVal.object .customError
      [("name", .string "CustomError"),
       ("message", .string ("CPI request failed with status " ++ toString st)),
       ("status", .number st),
       ("code", .string "CPI_HTTP_ERR"),
       ("target", .nul), ("details", .nul),
       ("module", jsOr m .nul),
       ("internal", .object .plain [("status", .number st), ("data", d), ("headers", hs)]),
       ("stack", capturedStackTraceVal)]) := by
  unfold normalizeError isHanaError isCpiHttpError
  simp [JSVal.getProp, fieldOf, lookupProp, truthy_number, truthy_object, truthy_undef,
    truthy_string, hst, hr, mkCustomErrorNew, computeStack, isInstanceOfError,
    isInstanceOfCustomError, classTagIs, spreadProps, mergeProps, jsOr, errorMessageVal,
    jsToString, emptyObjVal, classNameOf]

/-- Claim C7. A value carrying a nested response object with a (truthy)
status — and nothing else the earlier detectors recognize — is classified
as a remote-HTTP error: the structured error's status equals the nested
status, its code is "CPI_HTTP_ERR", and its `internal` carries the nested
response's status, data and headers. -/
theorem normalizeError_cpi_classification (st : Int) (d hs m r : JSVal)
    (hst : st ≠ 0) (hr : truthy r = false) :
    ∃ v, normalizeError (.object .plain [("response", .object .plain
        [("status", .number st), ("data", d), ("headers", hs)])]) m r = Except.ok v ∧
      fieldOf v "status" = JSVal.number st ∧
      fieldOf v "code" = JSVal.string "CPI_HTTP_ERR" ∧
      fieldOf (fieldOf v "internal") "status" = JSVal.number st ∧
      fieldOf (fieldOf v "internal") "data" = d ∧
      fieldOf (fieldOf v "internal") "headers" = hs := by
  have hst2 : (st != 0) = true := by simp [bne_iff_ne]; exact hst
  exact ⟨_, normalizeError_cpi_eq st d hs m r hst2 hr, rfl, rfl, rfl, rfl, rfl⟩

/-- Claim C7, witness: the theorem at the concrete shape
`{response: {status: 503, data, headers}}`. -/
theorem normalizeError_cpi_classification_witness :
    ∃ v, normalizeError (.object .plain [("response", .object .plain
        [("status", .number 503), ("data", .string "payload"),
         ("headers", .object .plain [])])]) .undefV .undefV = Except.ok v ∧
      fieldOf v "status" = JSVal.number 503 ∧
      fieldOf v "code" = JSVal.string "CPI_HTTP_ERR" ∧
      fieldOf (fieldOf v "internal") "status" = JSVal.number 503 ∧
      fieldOf (fieldOf v "internal") "data" = JSVal.string "payload" ∧
      fieldOf (fieldOf v "internal") "headers" = JSVal.object .plain [] :=
  normalizeError_cpi_classification 503 (.string "payload") (.object .plain [])
    .undefV .undefV (by decide) rfl

/-- Normalization of a plain object matching the database-error predicate,
fully computed: the HANA branch fires regardless of any other shape the
value has. -/
theorem normalizeError_hana_plain_eq (ps : List (String × JSVal)) (m r : JSVal)
    (hdb : isHanaError (JSVal.object .plain ps) = Except.ok true) :
    normalizeError (JSVal.object .plain ps) m r =
      Except.ok (JSVal.object .customError
        [("name", .string "CustomError"),
         ("message", .string "Database execution failed"),
         ("status", .number 500),
         ("code", .string "HANA_DB_ERR"),
         ("target", .nul), ("details", .nul),
         ("module", jsOr m .nul),
         ("internal", .object .plain
           (mergeProps ps (if truthy r then reqContextProps r else []))),
         ("stack", capturedStackTraceVal)]) := by
  unfold normalizeError
  rw [hdb]
  rfl

/-- Claim C8. The classifier applies its branches in a fixed order with
first match winning: a value satisfying both the database-error predicate
and the remote-HTTP predicate (and none of the earlier `instanceof`
checks) is classified as the database error — status 500, code
"HANA_DB_ERR" — because the database check is ordered first. -/
theorem normalizeError_hana_before_cpi (err m r : JSVal)
    (h1 : isInstanceOfCustomError err = false)
    (h2 : classTagIs err .syntaxError = false)
    (h3 : classTagIs err .typeError = false)
    (h4 : classTagIs err .referenceError = false)
    (h5 : classTagIs err .rangeError = false)
    (hdb : isHanaError err = Except.ok true)
    (hcpi : isCpiHttpError err = Except.ok true) :
    ∃ v, normalizeError err m r = Except.ok v ∧
      fieldOf v "code" = JSVal.string "HANA_DB_ERR" ∧
      fieldOf v "status" = JSVal.number 500 := by
  cases err with
  | undefV => simp [isHanaError, JSVal.getProp] at hdb
  | nul => simp [isHanaError, JSVal.getProp] at hdb
  | boolean b => simp [isHanaError, JSVal.getProp, fieldOf, truthy_undef] at hdb
  | number n => simp [isHanaError, JSVal.getProp, fieldOf, truthy_undef] at hdb
  | string s => simp [isHanaError, JSVal.getProp, fieldOf, truthy_undef] at hdb
  | object c ps =>
    cases c with
    | plain => exact ⟨_, normalizeError_hana_plain_eq ps m r hdb, rfl, rfl⟩
    | syntaxError => simp [classTagIs] at h2
    | typeError => simp [classTagIs] at h3
    | referenceError => simp [classTagIs] at h4
    | rangeError => simp [classTagIs] at h5
    | customError => simp [isInstanceOfCustomError] at h1
    | validationError => simp [isInstanceOfCustomError] at h1
    | authorizationError => simp [isInstanceOfCustomError] at h1
    | businessLogicError => simp [isInstanceOfCustomError] at h1

/-- Claim C8, witness: a value matching both detectors (code "HY000",
truthy message, nested response with status) is classified HANA_DB_ERR. -/
theorem normalizeError_hana_before_cpi_witness :
    ∃ v, normalizeError (JSVal.object .plain
        [("code", .string "HY000"), ("message", .string "db blew up"),
         ("response", .object .plain [("status", .number 503)])]) .undefV .undefV =
        Except.ok v ∧
      fieldOf v "code" = JSVal.string "HANA_DB_ERR" ∧
      fieldOf v "status" = JSVal.number 500 :=
  normalizeError_hana_before_cpi _ .undefV .undefV rfl rfl rfl rfl rfl rfl rfl

/-- Claim C10. A raw (plain-object) error value whose `code` is truthy but
not a string and whose `message` is truthy makes the database-error
detector call `startsWith` on the non-string code, so the classifier
throws a `TypeError` instead of classifying the value. -/
theorem normalizeError_throws_on_nonstring_code (ps : List (String × JSVal)) (m r : JSVal)
    (hcode : truthy (lookupProp ps "code") = true)
    (hstr : isStringVal (lookupProp ps "code") = false)
    (hmsg : truthy (lookupProp ps "message") = true) :
    ∃ e, normalizeError (JSVal.object .plain ps) m r = Except.error e ∧
      classTagOf e = some JSClass.typeError := by
  refine ⟨typeErrorVal "startsWith is not a function", ?_, rfl⟩
  unfold normalizeError isHanaError
  cases hv : lookupProp ps "code" with
  | undefV => rw [hv] at hcode; simp [truthy_undef] at hcode
  | nul => rw [hv] at hcode; simp [truthy_nul] at hcode
  | string s => rw [hv] at hstr; simp [isStringVal] at hstr
  | boolean b =>
    rw [hv] at hcode
    simp [JSVal.getProp, fieldOf, hv, hcode, hmsg, jsStartsWith,
      isInstanceOfCustomError, classTagIs]
  | number n =>
    rw [hv] at hcode
    simp [JSVal.getProp, fieldOf, hv, hcode, hmsg, jsStartsWith,
      isInstanceOfCustomError, classTagIs]
  | object c2 ps2 =>
    simp [JSVal.getProp, fieldOf, hv, hmsg, jsStartsWith, truthy_object,
      isInstanceOfCustomError, classTagIs]

/-- Claim C10, witness: a numeric database error code (`{code: 258,
message: "db failed"}`) makes the classifier throw a `TypeError`. -/
theorem normalizeError_throws_on_nonstring_code_witness :
    ∃ e, normalizeError (JSVal.object .plain
        [("code", .number 258), ("message", .string "db failed")]) .undefV .undefV =
        Except.error e ∧
      classTagOf e = some JSClass.typeError :=
  normalizeError_throws_on_nonstring_code _ .undefV .undefV rfl rfl rfl
